import Mathlib

/-!
Formal model of the `bob.ip.optflow.hornschunck` optical-flow package.

The repository ships two binding source files:

* `src/bob/ip/optflow/hornschunck/central.cpp` — bindings for the
  spatio-temporal gradient estimators (`CentralGradient` and its fixed
  subclasses `SobelGradient`, `PrewittGradient`, `IsotropicGradient`);
* `src/xbob/ip/optflow/hornschunck/flow.cc` — bindings for the two
  Horn–Schunck solvers, the two laplacian-averaging operators and the
  `flow_error` utility.

The numerical kernels themselves (`SpatioTemporalGradient.cpp`,
`HornAndSchunckFlow.cpp`, `flowError`, `laplacian_avg_hs`,
`laplacian_avg_hs_opencv`) are repository code that only exists behind the
headers included by those bindings; the definitions for them below are
modelled from the specification and are marked as such in their doc
comments.  Images and fields are embedded as total functions
`Nat → Nat → ℚ` together with explicit (height, width) metadata; float64
values that the error-handling paths must distinguish from NaN are wrapped
in the `F64` type.  Machine floating point rounding is out of scope: the
algebraic identities proved here are exact over `ℚ`.
-/

/-- A dense 2-D field: total function from (row, column) to a value. -/
abbrev Mat := Nat → Nat → ℚ

/-- A 3-D spatio-temporal buffer (row, column, frame index). -/
abbrev Mat3 := Nat → Nat → Nat → ℚ

/-- The everywhere-zero field. -/
def zeroFun : Mat := fun _ _ => 0

/-- Replicate boundary policy: clamp an integer index into `[0, n-1]`
("out-of-bounds indices are clamped to the nearest in-bounds index"). -/
def clampN (n : Nat) (i : ℤ) : Nat := (min (max i 0) ((n : ℤ) - 1)).toNat

/-- Modelled from the spec: generic application of a 3×3 stencil given as a
list of `(row offset, column offset, weight)` taps, with replicate boundary
policy.  This is the common core of the two laplacian-averaging operators
(`laplacian_avg_hs` and `laplacian_avg_hs_opencv` in `flow.cc`), whose C++
implementation is not under `src/`. -/
def applyStencil (taps : List (ℤ × ℤ × ℚ)) (h w : Nat) (u : Mat) : Mat :=
  fun y x =>
    taps.foldl
      (fun acc t => acc + t.2.2 * u (clampN h ((y : ℤ) + t.1)) (clampN w ((x : ℤ) + t.2.1)))
      0

/-- The full 3×3 averaging stencil of the classical Horn–Schunck operator,
as documented in `laplacian_avg_hs_doc` (`flow.cc`):
rows `[1/12, 1/6, 1/12]`, `[1/6, 0, 1/6]`, `[1/12, 1/6, 1/12]`. -/
def hsAvgTaps : List (ℤ × ℤ × ℚ) :=
  [(-1, -1, 1/12), (-1, 0, 1/6), (-1, 1, 1/12),
   (0, -1, 1/6), (0, 0, 0), (0, 1, 1/6),
   (1, -1, 1/12), (1, 0, 1/6), (1, 1, 1/12)]

/-- The full 3×3 averaging stencil of the OpenCV-style operator, as
documented in `laplacian_avg_hs_opencv_doc` (`flow.cc`):
rows `[0, 1/4, 0]`, `[1/4, 0, 1/4]`, `[0, 1/4, 0]`. -/
def opencvAvgTaps : List (ℤ × ℤ × ℚ) :=
  [(-1, -1, 0), (-1, 0, 1/4), (-1, 1, 0),
   (0, -1, 1/4), (0, 0, 0), (0, 1, 1/4),
   (1, -1, 0), (1, 0, 1/4), (1, 1, 0)]

/-- Modelled from the spec: the classical Horn–Schunck laplacian-averaging
operator `laplacian_avg_hs` (bound in `flow.cc`, implementation not under
`src/`): direct application of the averaging stencil with replicate
boundary. -/
def laplacian_avg_hs (h w : Nat) (u : Mat) : Mat := applyStencil hsAvgTaps h w u

/-- Modelled from the spec: the OpenCV-variant laplacian-averaging operator
`laplacian_avg_hs_opencv` (bound in `flow.cc`, implementation not under
`src/`): direct application of the 4-neighbour averaging stencil with
replicate boundary. -/
def laplacian_avg_hs_opencv (h w : Nat) (u : Mat) : Mat :=
  applyStencil opencvAvgTaps h w u

/-- A 3-tap kernel (difference or averaging), always length 3 once validated. -/
structure K3 where
  k0 : ℚ
  k1 : ℚ
  k2 : ℚ

/-- Modelled from the spec: the separable convolution primitive along the
column axis, `out[i] = k[0]·B[i−1] + k[1]·B[i] + k[2]·B[i+1]`, replicate
boundary (the 1-D passes of `SpatioTemporalGradient.cpp` are not under
`src/`). -/
def along_x (k : K3) (w : Nat) (f : Mat) : Mat := fun y x =>
  k.k0 * f y (clampN w ((x : ℤ) - 1)) + k.k1 * f y x + k.k2 * f y (clampN w ((x : ℤ) + 1))

/-- Modelled from the spec: the separable convolution primitive along the
row axis, replicate boundary. -/
def along_y (k : K3) (h : Nat) (f : Mat) : Mat := fun y x =>
  k.k0 * f (clampN h ((y : ℤ) - 1)) x + k.k1 * f y x + k.k2 * f (clampN h ((y : ℤ) + 1)) x

/-- Modelled from the spec: the separable convolution primitive along the
temporal axis of an image triplet: index −1 maps to frame 1, 0 to frame 2,
+1 to frame 3; no clamping since the temporal extent is exactly 3. -/
def along_t (k : K3) (f1 f2 f3 : Mat) : Mat := fun y x =>
  k.k0 * f1 y x + k.k1 * f2 y x + k.k2 * f3 y x

/-- An image triplet stacked into a (H, W, 3) buffer, frame index last. -/
def stack3 (f1 f2 f3 : Mat) : Mat3 := fun y x t =>
  if t = 0 then f1 y x else if t = 1 then f2 y x else f3 y x

/-- Column-axis pass over a whole (H, W, 3) scratch buffer. -/
def conv3x (k : K3) (w : Nat) (B : Mat3) : Mat3 := fun y x t =>
  k.k0 * B y (clampN w ((x : ℤ) - 1)) t + k.k1 * B y x t + k.k2 * B y (clampN w ((x : ℤ) + 1)) t

/-- Row-axis pass over a whole (H, W, 3) scratch buffer. -/
def conv3y (k : K3) (h : Nat) (B : Mat3) : Mat3 := fun y x t =>
  k.k0 * B (clampN h ((y : ℤ) - 1)) x t + k.k1 * B y x t + k.k2 * B (clampN h ((y : ℤ) + 1)) x t

/-- Temporal pass collapsing a (H, W, 3) buffer into one field. -/
def conv3t (k : K3) (B : Mat3) : Mat := fun y x =>
  k.k0 * B y x 0 + k.k1 * B y x 1 + k.k2 * B y x 2

/-- Modelled from the spec: the `CentralGradient` functor
(`SpatioTemporalGradient.cpp` is not under `src/`): each output is produced
by three separable passes over the stacked (H, W, 3) scratch buffer.
Ex uses d along x then a along y then a along t; Ey uses a, d, a; Et uses
a, a, d. -/
def centralOp (d a : K3) (h w : Nat) (f1 f2 f3 : Mat) : Mat × Mat × Mat :=
  (conv3t a (conv3y a h (conv3x d w (stack3 f1 f2 f3))),
   conv3t a (conv3y d h (conv3x a w (stack3 f1 f2 f3))),
   conv3t d (conv3y a h (conv3x a w (stack3 f1 f2 f3))))

/-- The fixed difference kernel of the Sobel estimator, `[+1, 0, −1]`. -/
def sobelDiff : K3 := ⟨1, 0, -1⟩

/-- The fixed averaging kernel of the Sobel estimator, `[1, 2, 1]`. -/
def sobelAvg : K3 := ⟨1, 2, 1⟩

/-- Clamp `i` to at most `n - 1` (replicate policy at the right/bottom edge
for the vanilla forward differences; the index is never negative there). -/
def clampU (n i : Nat) : Nat := min i (n - 1)

/-- Modelled from the spec: the vanilla solver's forward-difference Ex over
the 2×2×2 neighbourhood averaged per the original paper, replicate at the
right/bottom edge (`HornAndSchunckFlow.cpp` is not under `src/`). -/
def vanillaEx (h w : Nat) (i1 i2 : Mat) : Mat := fun y x =>
  1/4 * ((i1 y (clampU w (x + 1)) - i1 y x)
       + (i1 (clampU h (y + 1)) (clampU w (x + 1)) - i1 (clampU h (y + 1)) x)
       + (i2 y (clampU w (x + 1)) - i2 y x)
       + (i2 (clampU h (y + 1)) (clampU w (x + 1)) - i2 (clampU h (y + 1)) x))

/-- Modelled from the spec: the vanilla solver's forward-difference Ey,
symmetric to `vanillaEx`. -/
def vanillaEy (h w : Nat) (i1 i2 : Mat) : Mat := fun y x =>
  1/4 * ((i1 (clampU h (y + 1)) x - i1 y x)
       + (i1 (clampU h (y + 1)) (clampU w (x + 1)) - i1 y (clampU w (x + 1)))
       + (i2 (clampU h (y + 1)) x - i2 y x)
       + (i2 (clampU h (y + 1)) (clampU w (x + 1)) - i2 y (clampU w (x + 1))))

/-- Modelled from the spec: the vanilla solver's forward-difference Et,
the averaged frame difference i₂ − i₁ over the 2×2 spatial neighbourhood. -/
def vanillaEt (h w : Nat) (i1 i2 : Mat) : Mat := fun y x =>
  1/4 * ((i2 y x - i1 y x)
       + (i2 y (clampU w (x + 1)) - i1 y (clampU w (x + 1)))
       + (i2 (clampU h (y + 1)) x - i1 (clampU h (y + 1)) x)
       + (i2 (clampU h (y + 1)) (clampU w (x + 1)) - i1 (clampU h (y + 1)) (clampU w (x + 1))))

/-- Modelled from the spec: one Jacobi fixed-point update of the
Horn–Schunck solver.  `ū ← avg u`, `v̄ ← avg v`,
`numer = Ex·ū + Ey·v̄ + Et`, `denom = α² + Ex² + Ey² + Et²`,
`u ← ū − Ex·(numer/denom)`, `v ← v̄ − Ey·(numer/denom)`, committed
simultaneously. -/
def hsUpdate (avg : Mat → Mat) (alpha : ℚ) (ex ey et : Mat) (p : Mat × Mat) : Mat × Mat :=
  (fun y x =>
      avg p.1 y x - ex y x *
        ((ex y x * avg p.1 y x + ey y x * avg p.2 y x + et y x) /
          (alpha ^ 2 + ex y x ^ 2 + ey y x ^ 2 + et y x ^ 2)),
   fun y x =>
      avg p.2 y x - ey y x *
        ((ex y x * avg p.1 y x + ey y x * avg p.2 y x + et y x) /
          (alpha ^ 2 + ex y x ^ 2 + ey y x ^ 2 + et y x ^ 2)))

/-- Iterate a function `n` times (the solver's counted loop). -/
def iterN {α : Type} (f : α → α) : Nat → α → α
  | 0, p => p
  | n + 1, p => iterN f n (f p)

/-- Modelled from the spec: the vanilla Horn–Schunck solve: forward
differences for the gradients, classical laplacian averaging, `n` Jacobi
iterations warm-started from `(u, v)`. -/
def vanillaIterate (h w : Nat) (alpha : ℚ) (n : Nat) (i1 i2 u v : Mat) : Mat × Mat :=
  iterN
    (hsUpdate (laplacian_avg_hs h w) alpha
      (vanillaEx h w i1 i2) (vanillaEy h w i1 i2) (vanillaEt h w i1 i2))
    n (u, v)

/-- Modelled from the spec: the smoothed Horn–Schunck solve: Sobel gradient
estimator over the frame triplet, OpenCV laplacian averaging, `n` Jacobi
iterations warm-started from `(u, v)`. -/
def hsIterate (h w : Nat) (alpha : ℚ) (n : Nat) (i1 i2 i3 u v : Mat) : Mat × Mat :=
  iterN
    (hsUpdate (laplacian_avg_hs_opencv h w) alpha
      (centralOp sobelDiff sobelAvg h w i1 i2 i3).1
      (centralOp sobelDiff sobelAvg h w i1 i2 i3).2.1
      (centralOp sobelDiff sobelAvg h w i1 i2 i3).2.2)
    n (u, v)

/-- Clamp a rational sample coordinate into `[0, hi]` (replicate policy of
the bilinear resampling). -/
def clampQ (hi q : ℚ) : ℚ := max 0 (min q hi)

/-- Modelled from the spec: bilinear interpolation of `f` at the (possibly
fractional) sample position `(ys, xs)`, with out-of-bounds coordinates
clamped to the boundary (the `bob::ip::optflow::flowError` resampling is
not under `src/`). -/
def bilin (h w : Nat) (f : Mat) (ys xs : ℚ) : ℚ :=
  (1 - (clampQ ((h : ℚ) - 1) ys - (Int.floor (clampQ ((h : ℚ) - 1) ys) : ℚ))) *
    ((1 - (clampQ ((w : ℚ) - 1) xs - (Int.floor (clampQ ((w : ℚ) - 1) xs) : ℚ))) *
        f (Int.floor (clampQ ((h : ℚ) - 1) ys)).toNat
          (Int.floor (clampQ ((w : ℚ) - 1) xs)).toNat
      + (clampQ ((w : ℚ) - 1) xs - (Int.floor (clampQ ((w : ℚ) - 1) xs) : ℚ)) *
        f (Int.floor (clampQ ((h : ℚ) - 1) ys)).toNat
          (min ((Int.floor (clampQ ((w : ℚ) - 1) xs)).toNat + 1) (w - 1)))
  + (clampQ ((h : ℚ) - 1) ys - (Int.floor (clampQ ((h : ℚ) - 1) ys) : ℚ)) *
    ((1 - (clampQ ((w : ℚ) - 1) xs - (Int.floor (clampQ ((w : ℚ) - 1) xs) : ℚ))) *
        f (min ((Int.floor (clampQ ((h : ℚ) - 1) ys)).toNat + 1) (h - 1))
          (Int.floor (clampQ ((w : ℚ) - 1) xs)).toNat
      + (clampQ ((w : ℚ) - 1) xs - (Int.floor (clampQ ((w : ℚ) - 1) xs) : ℚ)) *
        f (min ((Int.floor (clampQ ((h : ℚ) - 1) ys)).toNat + 1) (h - 1))
          (min ((Int.floor (clampQ ((w : ℚ) - 1) xs)).toNat + 1) (w - 1)))

/-- Modelled from the spec: the free function `flow_error`
(`bob::ip::optflow::flowError`, not under `src/`):
`e[y,x] = i₂(x−u[y,x], y−v[y,x]) − i₁[y,x]` with bilinear interpolation on
i₂ and replicate clamping of out-of-bounds sample coordinates. -/
def flowError (h w : Nat) (i1 i2 u v : Mat) : Mat := fun y x =>
  bilin h w i2 ((y : ℚ) - v y x) ((x : ℚ) - u y x) - i1 y x

/-- A float64 value as the error-handling paths must see it: either a
finite value (embedded as a rational) or NaN. -/
inductive F64
  | val (q : ℚ)
  | nan
deriving DecidableEq

/-- Whether a float64 value is NaN. -/
def F64.isNaN : F64 → Bool
  | F64.nan => true
  | F64.val _ => false

/-- Extract the finite values of a list of float64 entries; `none` when any
entry is non-finite. -/
def finiteVals : List F64 → Option (List ℚ)
  | [] => some []
  | F64.val q :: r => (finiteVals r).map (fun l => q :: l)
  | F64.nan :: _ => none

/-- The dtype tag of an array as the bindings inspect it (`type_num`). -/
inductive Dtype
  | uint8
  | float64
  | other
deriving DecidableEq

/-- A 1-D kernel argument as the binding receives it: dtype tag, shape
vector (its length is `ndim`) and raw float64 data. -/
structure PyVec where
  dtype : Dtype
  shape : List Nat
  data : List F64

/-- A 2-D image or field argument as the binding receives it: dtype tag,
shape vector (its length is `ndim`) and entries. -/
structure PyArr where
  dtype : Dtype
  shape : List Nat
  entries : Mat

/-- The failure kinds surfaced by the bindings (Python `TypeError`,
`RuntimeError`) and by the C++ layer (invalid argument, shape mismatch). -/
inductive Err
  | typeError
  | runtimeError
  | invalidArgument
  | shapeError
deriving DecidableEq

/-- Whether a fallible call succeeded. -/
def exOk {α : Type} : Except Err α → Bool
  | Except.ok _ => true
  | Except.error _ => false

/-- The state of a `CentralGradient` estimator: the validated difference
and average kernels and the configured shape. -/
structure GradState where
  diff : K3
  avg : K3
  height : Nat
  width : Nat

/-- The state a caller observes after a setter call: the new state on
success, the untouched old state on failure (the binding returns −1
without replacing `self->cxx`'s kernel). -/
def afterSet (st : GradState) (r : Except Err GradState) : GradState :=
  match r with
  | Except.ok s => s
  | Except.error _ => st

/-- Modelled from the spec: `CentralGradient::setDiffKernel`
(`SpatioTemporalGradient.cpp` is not under `src/`): "non-finite kernel
entries → invalid-argument failure"; a finite length-3 kernel is stored. -/
def cxxSetDiffKernel (st : GradState) (k : List F64) : Except Err GradState :=
  match finiteVals k with
  | some [a, b, c] => Except.ok { st with diff := ⟨a, b, c⟩ }
  | _ => Except.error Err.invalidArgument

/-- Modelled from the spec: `CentralGradient::setAvgKernel`, as
`cxxSetDiffKernel` but for the averaging kernel. -/
def cxxSetAvgKernel (st : GradState) (k : List F64) : Except Err GradState :=
  match finiteVals k with
  | some [a, b, c] => Except.ok { st with avg := ⟨a, b, c⟩ }
  | _ => Except.error Err.invalidArgument

/-- Modelled from the spec: the `CentralGradient` C++ constructor
(`SpatioTemporalGradient.cpp` is not under `src/`): stores both kernels
when all entries are finite, otherwise fails with an invalid-argument
error. -/
def cxxCentralGradientNew (d a : List F64) (hgt wdt : Nat) : Except Err GradState :=
  match finiteVals d with
  | some [d0, d1, d2] =>
    match finiteVals a with
    | some [a0, a1, a2] => Except.ok ⟨⟨d0, d1, d2⟩, ⟨a0, a1, a2⟩, hgt, wdt⟩
    | _ => Except.error Err.invalidArgument
  | _ => Except.error Err.invalidArgument

/-- The `difference` setter binding (`central.cpp:161`): rejects with a
`TypeError` unless the kernel is 1-D float64 with 3 elements, then hands
the data to the C++ setter. -/
def PyBobIpOptflowCentralGradient_setDifference (st : GradState) (k : PyVec) :
    Except Err GradState :=
  if k.dtype = Dtype.float64 ∧ k.shape.length = 1 ∧ k.shape.headD 0 = 3 then
    cxxSetDiffKernel st k.data
  else Except.error Err.typeError

/-- The `average` setter binding (`central.cpp:203`): rejects with a
`TypeError` unless the kernel is 1-D float64 with 3 elements, then hands
the data to the C++ setter. -/
def PyBobIpOptflowCentralGradient_setAverage (st : GradState) (k : PyVec) :
    Except Err GradState :=
  if k.dtype = Dtype.float64 ∧ k.shape.length = 1 ∧ k.shape.headD 0 = 3 then
    cxxSetAvgKernel st k.data
  else Except.error Err.typeError

/-- The `CentralGradient` constructor binding (`central.cpp:53`): validates
the difference kernel, then the average kernel (1-D float64, 3 elements),
then builds the C++ object. -/
def PyBobIpOptflowCentralGradient_init (d a : PyVec) (hgt wdt : Nat) :
    Except Err GradState :=
  if d.dtype = Dtype.float64 ∧ d.shape.length = 1 ∧ d.shape.headD 0 = 3 then
    if a.dtype = Dtype.float64 ∧ a.shape.length = 1 ∧ a.shape.headD 0 = 3 then
      cxxCentralGradientNew d.data a.data hgt wdt
    else Except.error Err.typeError
  else Except.error Err.typeError

/-- The `evaluate` binding (`central.cpp:335`): type-checks the three
images, checks their shapes against the configured one, requires the three
optional outputs to be given all together or not at all, type- and
shape-checks them when given, allocates zero-initialised outputs when not,
and only then invokes the gradient functor.  On any error path nothing is
computed and nothing is written to the outputs. -/
def PyBobIpOptflowCentralGradient_evaluate (st : GradState)
    (image1 image2 image3 : PyArr) (ex ey et : Option PyArr) :
    Except Err (Mat × Mat × Mat) :=
  if ¬(image1.dtype = Dtype.float64 ∧ image1.shape.length = 2) then
    Except.error Err.typeError
  else if ¬(image2.dtype = Dtype.float64 ∧ image2.shape.length = 2) then
    Except.error Err.typeError
  else if ¬(image3.dtype = Dtype.float64 ∧ image3.shape.length = 2) then
    Except.error Err.typeError
  else if ¬(image1.shape = [st.height, st.width]) then Except.error Err.runtimeError
  else if ¬(image2.shape = [st.height, st.width]) then Except.error Err.runtimeError
  else if ¬(image3.shape = [st.height, st.width]) then Except.error Err.runtimeError
  else
    match ex, ey, et with
    | some exArr, some eyArr, some etArr =>
      if ¬(exArr.dtype = Dtype.float64 ∧ exArr.shape.length = 2) then
        Except.error Err.typeError
      else if ¬(eyArr.dtype = Dtype.float64 ∧ eyArr.shape.length = 2) then
        Except.error Err.typeError
      else if ¬(etArr.dtype = Dtype.float64 ∧ etArr.shape.length = 2) then
        Except.error Err.typeError
      else if ¬(exArr.shape = [st.height, st.width]) then Except.error Err.runtimeError
      else if ¬(eyArr.shape = [st.height, st.width]) then Except.error Err.runtimeError
      else if ¬(etArr.shape = [st.height, st.width]) then Except.error Err.runtimeError
      else
        Except.ok (centralOp st.diff st.avg st.height st.width
          image1.entries image2.entries image3.entries)
    | none, none, none =>
      Except.ok (centralOp st.diff st.avg st.height st.width
        image1.entries image2.entries image3.entries)
    | _, _, _ => Except.error Err.runtimeError

/-- The enumerator values of `bob::core::array::ElementType` from the
external bob-core header against which `flow.cc` compiles: `t_uint8` is the
7th enumerator (value 6) and `t_float64` the 12th (value 11). -/
def dtypeCode : Dtype → Nat
  | Dtype.uint8 => 6
  | Dtype.float64 => 11
  | Dtype.other => 0

/-- A blitz 2-D array view as the C++ layer receives it. -/
structure BZMat where
  h : Nat
  w : Nat
  entries : Mat

/-- Extraction of a blitz view from a 2-D binding argument. -/
def toBZ (a : PyArr) : BZMat := ⟨a.shape.headD 0, (a.shape.drop 1).headD 0, a.entries⟩

/-- Modelled from the spec: `VanillaHornAndSchunckFlow::operator()`
(`HornAndSchunckFlow.cpp` is not under `src/`): rejects fields whose shape
differs from the configured one, then runs the counted Jacobi iteration
warm-started from the supplied `u`, `v`. -/
def vanillaCxxRun (cfgH cfgW : Nat) (alpha : ℚ) (n : Nat) (i1 i2 u v : BZMat) :
    Except Err (Mat × Mat) :=
  if i1.h = cfgH ∧ i1.w = cfgW ∧ i2.h = cfgH ∧ i2.w = cfgW ∧
      u.h = cfgH ∧ u.w = cfgW ∧ v.h = cfgH ∧ v.w = cfgW then
    Except.ok (vanillaIterate cfgH cfgW alpha n i1.entries i2.entries u.entries v.entries)
  else Except.error Err.shapeError

/-- Modelled from the spec: `HornAndSchunckFlow::operator()` (smoothed
variant, `HornAndSchunckFlow.cpp` is not under `src/`): shape checks, then
the counted Jacobi iteration with Sobel gradients and OpenCV averaging. -/
def hsCxxRun (cfgH cfgW : Nat) (alpha : ℚ) (n : Nat) (i1 i2 i3 u v : BZMat) :
    Except Err (Mat × Mat) :=
  if i1.h = cfgH ∧ i1.w = cfgW ∧ i2.h = cfgH ∧ i2.w = cfgW ∧
      i3.h = cfgH ∧ i3.w = cfgW ∧ u.h = cfgH ∧ u.w = cfgW ∧ v.h = cfgH ∧ v.w = cfgW then
    Except.ok (hsIterate cfgH cfgW alpha n i1.entries i2.entries i3.entries
      u.entries v.entries)
  else Except.error Err.shapeError

/-- The `vanillahs_call` binding (`flow.cc:17`): allocates fresh (H, W)
float64 outputs `u`, `v` and zero-initialises them, then dispatches on the
input's type.  The source switches on `info.nd` — the dimension count of
`i1`, which is 2 for the required 2-D input — while the case labels
`t_uint8` and `t_float64` are dtype enumerators (values 6 and 11), so no
case ever matches and the default branch raises a `TypeError`.  (In the
uint8 branch the cast to double is the identity on our rational entries.) -/
def vanillahs_call (cfgH cfgW : Nat) (alpha : ℚ) (iterations : Nat) (i1 i2 : PyArr) :
    Except Err (Mat × Mat) :=
  if i1.shape.length = dtypeCode Dtype.uint8 then
    vanillaCxxRun cfgH cfgW alpha iterations (toBZ i1) (toBZ i2)
      ⟨i1.shape.headD 0, (i1.shape.drop 1).headD 0, zeroFun⟩
      ⟨i1.shape.headD 0, (i1.shape.drop 1).headD 0, zeroFun⟩
  else if i1.shape.length = dtypeCode Dtype.float64 then
    vanillaCxxRun cfgH cfgW alpha iterations (toBZ i1) (toBZ i2)
      ⟨i1.shape.headD 0, (i1.shape.drop 1).headD 0, zeroFun⟩
      ⟨i1.shape.headD 0, (i1.shape.drop 1).headD 0, zeroFun⟩
  else Except.error Err.typeError

/-- The `hs_call` binding (`flow.cc:89`): same structure as
`vanillahs_call` for the smoothed solver over a frame triplet, with the
same `switch (info.nd)` dispatch. -/
def hs_call (cfgH cfgW : Nat) (alpha : ℚ) (iterations : Nat) (i1 i2 i3 : PyArr) :
    Except Err (Mat × Mat) :=
  if i1.shape.length = dtypeCode Dtype.uint8 then
    hsCxxRun cfgH cfgW alpha iterations (toBZ i1) (toBZ i2) (toBZ i3)
      ⟨i1.shape.headD 0, (i1.shape.drop 1).headD 0, zeroFun⟩
      ⟨i1.shape.headD 0, (i1.shape.drop 1).headD 0, zeroFun⟩
  else if i1.shape.length = dtypeCode Dtype.float64 then
    hsCxxRun cfgH cfgW alpha iterations (toBZ i1) (toBZ i2) (toBZ i3)
      ⟨i1.shape.headD 0, (i1.shape.drop 1).headD 0, zeroFun⟩
      ⟨i1.shape.headD 0, (i1.shape.drop 1).headD 0, zeroFun⟩
  else Except.error Err.typeError

/-- Extraction of a 2-D double blitz view (`ndarray::bz<double,2>()`):
it throws unless the array is 2-D float64, surfaced as a type error. -/
def bzDouble2 (a : PyArr) : Except Err BZMat :=
  if a.dtype = Dtype.float64 ∧ a.shape.length = 2 then Except.ok (toBZ a)
  else Except.error Err.typeError

/-- Extraction of a 2-D uint8 blitz view (`const_ndarray::bz<uint8_t,2>()`):
it throws unless the array is 2-D uint8.  The subsequent
`cast<double,uint8_t>` is the identity on our rational entries. -/
def bzUint8View (a : PyArr) : Except Err BZMat :=
  if a.dtype = Dtype.uint8 ∧ a.shape.length = 2 then Except.ok (toBZ a)
  else Except.error Err.typeError

/-- The in-place `vanillahs_call2` binding (`flow.cc:41`): first extracts
2-D double views of the caller's `u` and `v` (`flow.cc:44-45`, which throws
for any other dtype or rank), then dispatches on `i1.type().dtype`
(correctly, unlike `vanillahs_call`), extracts the frame views in the
chosen branch (`flow.cc:48-49,52`), and runs the solver on the caller's
fields. -/
def vanillahs_call2 (cfgH cfgW : Nat) (alpha : ℚ) (iterations : Nat)
    (i1 i2 u v : PyArr) : Except Err (Mat × Mat) :=
  match bzDouble2 u, bzDouble2 v with
  | Except.ok ub, Except.ok vb =>
    if i1.dtype = Dtype.uint8 then
      match bzUint8View i1, bzUint8View i2 with
      | Except.ok b1, Except.ok b2 =>
        vanillaCxxRun cfgH cfgW alpha iterations b1 b2 ub vb
      | Except.error e, _ => Except.error e
      | _, Except.error e => Except.error e
    else if i1.dtype = Dtype.float64 then
      match bzDouble2 i1, bzDouble2 i2 with
      | Except.ok b1, Except.ok b2 =>
        vanillaCxxRun cfgH cfgW alpha iterations b1 b2 ub vb
      | Except.error e, _ => Except.error e
      | _, Except.error e => Except.error e
    else Except.error Err.typeError
  | Except.error e, _ => Except.error e
  | _, Except.error e => Except.error e

/-- The in-place `hs_call2` binding (`flow.cc:115`): first extracts 2-D
double views of the caller's `u` and `v` (`flow.cc:118-119`), then
dispatches on `i1.type().dtype`, extracts the three frame views in the
chosen branch (`flow.cc:122-124,127-128`), and runs the smoothed solver on
the caller's fields. -/
def hs_call2 (cfgH cfgW : Nat) (alpha : ℚ) (iterations : Nat)
    (i1 i2 i3 u v : PyArr) : Except Err (Mat × Mat) :=
  match bzDouble2 u, bzDouble2 v with
  | Except.ok ub, Except.ok vb =>
    if i1.dtype = Dtype.uint8 then
      match bzUint8View i1, bzUint8View i2, bzUint8View i3 with
      | Except.ok b1, Except.ok b2, Except.ok b3 =>
        hsCxxRun cfgH cfgW alpha iterations b1 b2 b3 ub vb
      | Except.error e, _, _ => Except.error e
      | _, Except.error e, _ => Except.error e
      | _, _, Except.error e => Except.error e
    else if i1.dtype = Dtype.float64 then
      match bzDouble2 i1, bzDouble2 i2, bzDouble2 i3 with
      | Except.ok b1, Except.ok b2, Except.ok b3 =>
        hsCxxRun cfgH cfgW alpha iterations b1 b2 b3 ub vb
      | Except.error e, _, _ => Except.error e
      | _, Except.error e, _ => Except.error e
      | _, _, Except.error e => Except.error e
    else Except.error Err.typeError
  | Except.error e, _ => Except.error e
  | _, Except.error e => Except.error e

/-- Unfolding lemma: the classical averaging operator at a pixel is the
8-term weighted sum over the replicate-clamped 3×3 neighbourhood. -/
theorem laplacian_avg_hs_apply (h w : Nat) (u : Mat) (y x : Nat) :
    laplacian_avg_hs h w u y x =
      1/12 * u (clampN h ((y : ℤ) - 1)) (clampN w ((x : ℤ) - 1))
      + 1/6 * u (clampN h ((y : ℤ) - 1)) (clampN w (x : ℤ))
      + 1/12 * u (clampN h ((y : ℤ) - 1)) (clampN w ((x : ℤ) + 1))
      + 1/6 * u (clampN h (y : ℤ)) (clampN w ((x : ℤ) - 1))
      + 0 * u (clampN h (y : ℤ)) (clampN w (x : ℤ))
      + 1/6 * u (clampN h (y : ℤ)) (clampN w ((x : ℤ) + 1))
      + 1/12 * u (clampN h ((y : ℤ) + 1)) (clampN w ((x : ℤ) - 1))
      + 1/6 * u (clampN h ((y : ℤ) + 1)) (clampN w (x : ℤ))
      + 1/12 * u (clampN h ((y : ℤ) + 1)) (clampN w ((x : ℤ) + 1)) := by
  simp only [laplacian_avg_hs, applyStencil, hsAvgTaps, List.foldl_cons, List.foldl_nil]
  ring_nf

/-- Unfolding lemma: the OpenCV-variant averaging operator at a pixel is the
4-term weighted sum over the replicate-clamped 4-neighbourhood. -/
theorem laplacian_avg_hs_opencv_apply (h w : Nat) (u : Mat) (y x : Nat) :
    laplacian_avg_hs_opencv h w u y x =
      1/4 * u (clampN h ((y : ℤ) - 1)) (clampN w (x : ℤ))
      + 1/4 * u (clampN h (y : ℤ)) (clampN w ((x : ℤ) - 1))
      + 0 * u (clampN h (y : ℤ)) (clampN w (x : ℤ))
      + 1/4 * u (clampN h (y : ℤ)) (clampN w ((x : ℤ) + 1))
      + 1/4 * u (clampN h ((y : ℤ) + 1)) (clampN w (x : ℤ)) := by
  simp only [laplacian_avg_hs_opencv, applyStencil, opencvAvgTaps, List.foldl_cons,
    List.foldl_nil]
  ring_nf

/-- C4: the classical laplacian-averaging operator computes ū by applying
the averaging stencil `[[1/12, 1/6, 1/12], [1/6, 0, 1/6], [1/12, 1/6, 1/12]]`
directly (with replicate boundary), and the OpenCV-variant operator applies
`[[0, 1/4, 0], [1/4, 0, 1/4], [0, 1/4, 0]]`: at every pixel each output is
exactly the stencil-weighted sum of the replicate-clamped neighbourhood, not
a Laplacian evaluation post-processed by a subtraction. -/
theorem c4_lapavg_stencils (h w : Nat) (u : Mat) (y x : Nat) :
    laplacian_avg_hs h w u y x =
      1/12 * u (clampN h ((y : ℤ) - 1)) (clampN w ((x : ℤ) - 1))
      + 1/6 * u (clampN h ((y : ℤ) - 1)) (clampN w (x : ℤ))
      + 1/12 * u (clampN h ((y : ℤ) - 1)) (clampN w ((x : ℤ) + 1))
      + 1/6 * u (clampN h (y : ℤ)) (clampN w ((x : ℤ) - 1))
      + 0 * u (clampN h (y : ℤ)) (clampN w (x : ℤ))
      + 1/6 * u (clampN h (y : ℤ)) (clampN w ((x : ℤ) + 1))
      + 1/12 * u (clampN h ((y : ℤ) + 1)) (clampN w ((x : ℤ) - 1))
      + 1/6 * u (clampN h ((y : ℤ) + 1)) (clampN w (x : ℤ))
      + 1/12 * u (clampN h ((y : ℤ) + 1)) (clampN w ((x : ℤ) + 1)) ∧
    laplacian_avg_hs_opencv h w u y x =
      1/4 * u (clampN h ((y : ℤ) - 1)) (clampN w (x : ℤ))
      + 1/4 * u (clampN h (y : ℤ)) (clampN w ((x : ℤ) - 1))
      + 0 * u (clampN h (y : ℤ)) (clampN w (x : ℤ))
      + 1/4 * u (clampN h (y : ℤ)) (clampN w ((x : ℤ) + 1))
      + 1/4 * u (clampN h ((y : ℤ) + 1)) (clampN w (x : ℤ)) :=
  ⟨laplacian_avg_hs_apply h w u y x, laplacian_avg_hs_opencv_apply h w u y x⟩

/-- C5: for every shape and every constant c, both laplacian-averaging
operators map the constant field with value c to c at every pixel, including
all boundary and corner pixels under the replicate boundary policy. -/
theorem c5_lapavg_constant (h w : Nat) (c : ℚ) (y x : Nat) :
    laplacian_avg_hs h w (fun _ _ => c) y x = c ∧
    laplacian_avg_hs_opencv h w (fun _ _ => c) y x = c := by
  constructor
  · rw [laplacian_avg_hs_apply]; ring
  · rw [laplacian_avg_hs_opencv_apply]; ring

/-- The classical averaging operator maps the zero field to the zero field. -/
theorem lap_hs_zeroFun (h w : Nat) : laplacian_avg_hs h w zeroFun = zeroFun := by
  funext y x
  rw [laplacian_avg_hs_apply]
  simp [zeroFun]

/-- The vanilla temporal gradient of two identical frames vanishes. -/
theorem vanillaEt_self (h w : Nat) (i : Mat) : vanillaEt h w i i = zeroFun := by
  funext y x
  simp [vanillaEt, zeroFun]

/-- When the averaging operator fixes the zero field and Et is zero, the
Jacobi update fixes the zero flow field. -/
theorem hsUpdate_zero_fixed (avg : Mat → Mat) (alpha : ℚ) (ex ey : Mat)
    (havg : avg zeroFun = zeroFun) :
    hsUpdate avg alpha ex ey zeroFun (zeroFun, zeroFun) = (zeroFun, zeroFun) := by
  have hz : ∀ y x : Nat, avg zeroFun y x = 0 := by
    intro y x; rw [havg]; rfl
  unfold hsUpdate
  congr 1 <;> funext y x <;> simp [hz, zeroFun]

/-- A fixed point of the step function is a fixed point of the counted
iteration. -/
theorem iterN_fixed {α : Type} (f : α → α) (p : α) (hp : f p = p) (n : Nat) :
    iterN f n p = p := by
  induction n with
  | zero => rfl
  | succ m ih =>
    show iterN f m (f p) = p
    rw [hp]
    exact ih

/-- C7: for identical frames i1 = i2, every alpha and every iteration
count, the vanilla Horn–Schunck solver warm-started at u = v = 0 returns
u = 0 and v = 0 at every pixel. -/
theorem c7_vanilla_identical_frames (h w : Nat) (alpha : ℚ) (n : Nat) (i1 : Mat)
    (y x : Nat) :
    (vanillaIterate h w alpha n i1 i1 zeroFun zeroFun).1 y x = 0 ∧
    (vanillaIterate h w alpha n i1 i1 zeroFun zeroFun).2 y x = 0 := by
  have hfix :
      hsUpdate (laplacian_avg_hs h w) alpha (vanillaEx h w i1 i1)
        (vanillaEy h w i1 i1) (vanillaEt h w i1 i1) (zeroFun, zeroFun) =
        (zeroFun, zeroFun) := by
    rw [vanillaEt_self]
    exact hsUpdate_zero_fixed _ alpha _ _ (lap_hs_zeroFun h w)
  have hiter : vanillaIterate h w alpha n i1 i1 zeroFun zeroFun = (zeroFun, zeroFun) :=
    iterN_fixed _ _ hfix n
  rw [hiter]
  exact ⟨rfl, rfl⟩

/-- C9: the flow error of an image against itself under the zero flow field
is zero at every pixel: the bilinear sample lands exactly on the integer
grid point, so `i₂(x, y) − i₁(x, y) = 0`. -/
theorem c9_flow_error_zero (h w : Nat) (i : Mat) (y x : Nat) (hy : y < h) (hx : x < w) :
    flowError h w i i zeroFun zeroFun y x = 0 := by
  have hxq : (x : ℚ) ≤ (w : ℚ) - 1 := by
    have h1 : (x : ℚ) + 1 ≤ (w : ℚ) := by exact_mod_cast Nat.succ_le_of_lt hx
    linarith
  have hyq : (y : ℚ) ≤ (h : ℚ) - 1 := by
    have h1 : (y : ℚ) + 1 ≤ (h : ℚ) := by exact_mod_cast Nat.succ_le_of_lt hy
    linarith
  have hcx : clampQ ((w : ℚ) - 1) (x : ℚ) = (x : ℚ) := by
    unfold clampQ
    rw [min_eq_left hxq, max_eq_right (Nat.cast_nonneg x)]
  have hcy : clampQ ((h : ℚ) - 1) (y : ℚ) = (y : ℚ) := by
    unfold clampQ
    rw [min_eq_left hyq, max_eq_right (Nat.cast_nonneg y)]
  unfold flowError bilin
  simp only [zeroFun, sub_zero, hcx, hcy, Int.floor_natCast, Int.cast_natCast,
    Int.toNat_natCast, sub_self]
  ring

/-- C9 witness: a concrete 2×2 image against itself under the zero flow. -/
theorem c9_flow_error_zero_witness :
    (1 < 2 ∧ 1 < 2) ∧
    flowError 2 2 (fun a b => (10 * a + b : ℚ)) (fun a b => (10 * a + b : ℚ))
      zeroFun zeroFun 1 1 = 0 :=
  ⟨⟨by decide, by decide⟩,
   c9_flow_error_zero 2 2 (fun a b => (10 * a + b : ℚ)) 1 1 (by decide) (by decide)⟩

/-- A float64 list containing a NaN entry has no finite extraction. -/
theorem finiteVals_none_of_nan (l : List F64) (hl : l.any F64.isNaN = true) :
    finiteVals l = none := by
  induction l with
  | nil => simp at hl
  | cons a r ih =>
    cases a with
    | nan => rfl
    | val q =>
      rw [List.any_cons, show F64.isNaN (F64.val q) = false from rfl,
        Bool.false_or] at hl
      rw [finiteVals, ih hl]
      rfl

/-- A shape vector of length 1 whose first entry is 3 is exactly `[3]`. -/
theorem shape_eq_three (l : List Nat) (h1 : l.length = 1) (h3 : l.headD 0 = 3) :
    l = [3] := by
  cases l with
  | nil => simp at h1
  | cons a t =>
    cases t with
    | nil => simp [List.headD] at h3; rw [h3]
    | cons b t2 => simp at h1

/-- C1: every call accepting a kernel argument — the parametric
`CentralGradient` constructor and the `difference`/`average` setters —
rejects a kernel whose length is not 3, whose dtype is not float64, or
that contains a NaN entry, and the estimator's state is unchanged (the
setter result observed through `afterSet` is the old state; the binding
checks cover length and dtype, the C++ layer rejects non-finite entries
before storing anything). -/
theorem c1_kernel_rejection (st : GradState) (k other : PyVec) (hgt wdt : Nat)
    (hbad : k.dtype ≠ Dtype.float64 ∨ k.shape ≠ [3] ∨ k.data.any F64.isNaN = true) :
    exOk (PyBobIpOptflowCentralGradient_setDifference st k) = false ∧
    afterSet st (PyBobIpOptflowCentralGradient_setDifference st k) = st ∧
    exOk (PyBobIpOptflowCentralGradient_setAverage st k) = false ∧
    afterSet st (PyBobIpOptflowCentralGradient_setAverage st k) = st ∧
    exOk (PyBobIpOptflowCentralGradient_init k other hgt wdt) = false ∧
    exOk (PyBobIpOptflowCentralGradient_init other k hgt wdt) = false := by
  have hcases :
      ¬(k.dtype = Dtype.float64 ∧ k.shape.length = 1 ∧ k.shape.headD 0 = 3) ∨
      ((k.dtype = Dtype.float64 ∧ k.shape.length = 1 ∧ k.shape.headD 0 = 3) ∧
        finiteVals k.data = none) := by
    by_cases hc : k.dtype = Dtype.float64 ∧ k.shape.length = 1 ∧ k.shape.headD 0 = 3
    · right
      refine ⟨hc, ?_⟩
      rcases hbad with hd | hs | hn
      · exact absurd hc.1 hd
      · exact absurd (shape_eq_three k.shape hc.2.1 hc.2.2) hs
      · exact finiteVals_none_of_nan k.data hn
    · left; exact hc
  have hsetDiff : exOk (PyBobIpOptflowCentralGradient_setDifference st k) = false := by
    rcases hcases with hc | ⟨hc, hn⟩
    · simp only [PyBobIpOptflowCentralGradient_setDifference, if_neg hc]; rfl
    · simp only [PyBobIpOptflowCentralGradient_setDifference, if_pos hc,
        cxxSetDiffKernel, hn]
      rfl
  have hsetAvg : exOk (PyBobIpOptflowCentralGradient_setAverage st k) = false := by
    rcases hcases with hc | ⟨hc, hn⟩
    · simp only [PyBobIpOptflowCentralGradient_setAverage, if_neg hc]; rfl
    · simp only [PyBobIpOptflowCentralGradient_setAverage, if_pos hc,
        cxxSetAvgKernel, hn]
      rfl
  have hafter : ∀ r : Except Err GradState, exOk r = false → afterSet st r = st := by
    intro r hr
    cases r with
    | ok s => simp [exOk] at hr
    | error e => rfl
  refine ⟨hsetDiff, hafter _ hsetDiff, hsetAvg, hafter _ hsetAvg, ?_, ?_⟩
  · rcases hcases with hc | ⟨hc, hn⟩
    · simp only [PyBobIpOptflowCentralGradient_init, if_neg hc]; rfl
    · simp only [PyBobIpOptflowCentralGradient_init, if_pos hc]
      by_cases ho : other.dtype = Dtype.float64 ∧ other.shape.length = 1 ∧
          other.shape.headD 0 = 3
      · simp only [if_pos ho, cxxCentralGradientNew, hn]
        rfl
      · simp only [if_neg ho]; rfl
  · rcases hcases with hc | ⟨hc, hn⟩
    · by_cases ho : other.dtype = Dtype.float64 ∧ other.shape.length = 1 ∧
          other.shape.headD 0 = 3
      · simp only [PyBobIpOptflowCentralGradient_init, if_pos ho, if_neg hc]; rfl
      · simp only [PyBobIpOptflowCentralGradient_init, if_neg ho]; rfl
    · by_cases ho : other.dtype = Dtype.float64 ∧ other.shape.length = 1 ∧
          other.shape.headD 0 = 3
      · simp only [PyBobIpOptflowCentralGradient_init, if_pos ho, if_pos hc,
          cxxCentralGradientNew]
        split
        · simp [hn, exOk]
        · rfl
      · simp only [PyBobIpOptflowCentralGradient_init, if_neg ho]; rfl

/-- C1 witness: a float64 length-3 kernel containing NaN is rejected by the
setters and the constructor of a concrete estimator. -/
theorem c1_kernel_rejection_witness :
    ((⟨Dtype.float64, [3], [F64.nan, F64.val 0, F64.val 1]⟩ : PyVec).dtype ≠
        Dtype.float64 ∨
      (⟨Dtype.float64, [3], [F64.nan, F64.val 0, F64.val 1]⟩ : PyVec).shape ≠ [3] ∨
      (⟨Dtype.float64, [3], [F64.nan, F64.val 0, F64.val 1]⟩ : PyVec).data.any
        F64.isNaN = true) ∧
    exOk (PyBobIpOptflowCentralGradient_setDifference ⟨⟨1, 0, -1⟩, ⟨1, 1, 1⟩, 2, 2⟩
      ⟨Dtype.float64, [3], [F64.nan, F64.val 0, F64.val 1]⟩) = false :=
  ⟨Or.inr (Or.inr (by decide)),
   (c1_kernel_rejection ⟨⟨1, 0, -1⟩, ⟨1, 1, 1⟩, 2, 2⟩
     ⟨Dtype.float64, [3], [F64.nan, F64.val 0, F64.val 1]⟩
     ⟨Dtype.float64, [3], [F64.val 1, F64.val 1, F64.val 1]⟩ 2 2
     (Or.inr (Or.inr (by decide)))).1⟩

/-- C2: evidence for the dispatch defect in the allocating `run` overloads.
`vanillahs_call` and `hs_call` zero-initialise fresh output fields, but then
switch on `info.nd` — the dimension count, which is 2 for the required 2-D
images — against the dtype enumerators `t_uint8` (6) and `t_float64` (11).
No case can match, so every call, including a well-formed float64 one,
raises a `TypeError` instead of running the solver and returning the
zero-warm-started `(u, v)` that the specification describes (and that the
correctly-dispatched in-place overloads would produce). -/
theorem c2_run_overload_nd_switch (cfgH cfgW : Nat) (alpha : ℚ) (n : Nat)
    (i1 i2 i3 : PyArr) (hnd : i1.shape.length = 2) :
    vanillahs_call cfgH cfgW alpha n i1 i2 = Except.error Err.typeError ∧
    hs_call cfgH cfgW alpha n i1 i2 i3 = Except.error Err.typeError := by
  constructor
  · simp [vanillahs_call, hnd, dtypeCode]
  · simp [hs_call, hnd, dtypeCode]

/-- C2 witness: the vanilla allocating overload rejects a concrete 1×1
float64 frame pair. -/
theorem c2_run_overload_nd_switch_witness :
    (PyArr.mk Dtype.float64 [1, 1] zeroFun).shape.length = 2 ∧
    vanillahs_call 1 1 1 1 (PyArr.mk Dtype.float64 [1, 1] zeroFun)
      (PyArr.mk Dtype.float64 [1, 1] zeroFun) = Except.error Err.typeError :=
  ⟨by decide,
   (c2_run_overload_nd_switch 1 1 1 1 (PyArr.mk Dtype.float64 [1, 1] zeroFun)
     (PyArr.mk Dtype.float64 [1, 1] zeroFun) (PyArr.mk Dtype.float64 [1, 1] zeroFun)
     (by decide)).1⟩

/-- C8: a call with iteration count 0 — the only representable non-positive
count, since the bindings take `size_t iterations` — is a no-op on both
solvers: the in-place overloads raise no error and return the caller's
`u` and `v` fields unchanged. -/
theorem c8_zero_iterations_noop (cfgH cfgW : Nat) (alpha : ℚ) (i1 i2 i3 u v : PyArr)
    (hdt1 : i1.dtype = Dtype.float64) (hdt2 : i2.dtype = Dtype.float64)
    (hdt3 : i3.dtype = Dtype.float64) (hdtu : u.dtype = Dtype.float64)
    (hdtv : v.dtype = Dtype.float64)
    (h1 : i1.shape = [cfgH, cfgW]) (h2 : i2.shape = [cfgH, cfgW])
    (h3 : i3.shape = [cfgH, cfgW]) (hu : u.shape = [cfgH, cfgW])
    (hv : v.shape = [cfgH, cfgW]) :
    vanillahs_call2 cfgH cfgW alpha 0 i1 i2 u v = Except.ok (u.entries, v.entries) ∧
    hs_call2 cfgH cfgW alpha 0 i1 i2 i3 u v = Except.ok (u.entries, v.entries) := by
  have hne : ¬(i1.dtype = Dtype.uint8) := by rw [hdt1]; exact fun hh => nomatch hh
  have hb : ∀ a : PyArr, a.dtype = Dtype.float64 → a.shape = [cfgH, cfgW] →
      bzDouble2 a = Except.ok (toBZ a) := by
    intro a hd hs
    have hn : a.shape.length = 2 := by rw [hs]; rfl
    simp [bzDouble2, hd, hn]
  constructor
  · simp only [vanillahs_call2, hb u hdtu hu, hb v hdtv hv, if_neg hne, if_pos hdt1,
      hb i1 hdt1 h1, hb i2 hdt2 h2, toBZ, h1, h2, hu, hv]
    simp [vanillaCxxRun, vanillaIterate, iterN]
  · simp only [hs_call2, hb u hdtu hu, hb v hdtv hv, if_neg hne, if_pos hdt1,
      hb i1 hdt1 h1, hb i2 hdt2 h2, hb i3 hdt3 h3, toBZ, h1, h2, h3, hu, hv]
    simp [hsCxxRun, hsIterate, iterN]

/-- C8 witness: concrete 1×1 float64 fields survive a zero-iteration call
on both solvers untouched. -/
theorem c8_zero_iterations_noop_witness :
    ((PyArr.mk Dtype.float64 [1, 1] (fun _ _ => 2)).dtype = Dtype.float64 ∧
      (PyArr.mk Dtype.float64 [1, 1] (fun _ _ => 5)).dtype = Dtype.float64 ∧
      (PyArr.mk Dtype.float64 [1, 1] (fun _ _ => 2)).shape = [1, 1] ∧
      (PyArr.mk Dtype.float64 [1, 1] (fun _ _ => 5)).shape = [1, 1]) ∧
    vanillahs_call2 1 1 1 0 (PyArr.mk Dtype.float64 [1, 1] (fun _ _ => 2))
      (PyArr.mk Dtype.float64 [1, 1] (fun _ _ => 2))
      (PyArr.mk Dtype.float64 [1, 1] (fun _ _ => 5))
      (PyArr.mk Dtype.float64 [1, 1] (fun _ _ => 5)) =
      Except.ok ((fun _ _ => 5 : Mat), (fun _ _ => 5 : Mat)) :=
  ⟨⟨by decide, by decide, by decide, by decide⟩,
   (c8_zero_iterations_noop 1 1 1 (PyArr.mk Dtype.float64 [1, 1] (fun _ _ => 2))
     (PyArr.mk Dtype.float64 [1, 1] (fun _ _ => 2))
     (PyArr.mk Dtype.float64 [1, 1] (fun _ _ => 2))
     (PyArr.mk Dtype.float64 [1, 1] (fun _ _ => 5))
     (PyArr.mk Dtype.float64 [1, 1] (fun _ _ => 5))
     (by decide) (by decide) (by decide) (by decide) (by decide)
     (by decide) (by decide) (by decide) (by decide) (by decide)).1⟩

/-- A column pass over a stacked triplet is the stack of per-frame column
passes. -/
theorem conv3x_stack (k : K3) (w : Nat) (f1 f2 f3 : Mat) :
    conv3x k w (stack3 f1 f2 f3) =
      stack3 (along_x k w f1) (along_x k w f2) (along_x k w f3) := by
  funext y x t
  simp only [conv3x, stack3, along_x]
  by_cases h0 : t = 0
  · simp [h0]
  · by_cases h1 : t = 1
    · simp [h0, h1]
    · simp [h0, h1]

/-- A row pass over a stacked triplet is the stack of per-frame row
passes. -/
theorem conv3y_stack (k : K3) (h : Nat) (f1 f2 f3 : Mat) :
    conv3y k h (stack3 f1 f2 f3) =
      stack3 (along_y k h f1) (along_y k h f2) (along_y k h f3) := by
  funext y x t
  simp only [conv3y, stack3, along_y]
  by_cases h0 : t = 0
  · simp [h0]
  · by_cases h1 : t = 1
    · simp [h0, h1]
    · simp [h0, h1]

/-- The temporal pass over a stacked triplet is the 3-tap combination of
the frames. -/
theorem conv3t_stack (k : K3) (g1 g2 g3 : Mat) :
    conv3t k (stack3 g1 g2 g3) = along_t k g1 g2 g3 := by
  funext y x
  simp [conv3t, stack3, along_t]

/-- The gradient functor factorises into the per-frame three-pass
separable composition. -/
theorem centralOp_separable (d a : K3) (h w : Nat) (f1 f2 f3 : Mat) :
    centralOp d a h w f1 f2 f3 =
      (along_t a (along_y a h (along_x d w f1)) (along_y a h (along_x d w f2))
         (along_y a h (along_x d w f3)),
       along_t a (along_y d h (along_x a w f1)) (along_y d h (along_x a w f2))
         (along_y d h (along_x a w f3)),
       along_t d (along_y a h (along_x a w f1)) (along_y a h (along_x a w f2))
         (along_y a h (along_x a w f3))) := by
  unfold centralOp
  simp only [conv3x_stack, conv3y_stack, conv3t_stack]

/-- C6: for every parametric estimator and every image triplet of the
configured shape, `evaluate` produces the three-pass separable composition:
Ex applies d along x, then a along y, then a along t; Ey applies a, d, a;
Et applies a, a, d. -/
theorem c6_separable_composition (st : GradState) (image1 image2 image3 : PyArr)
    (ht1 : image1.dtype = Dtype.float64) (hs1 : image1.shape = [st.height, st.width])
    (ht2 : image2.dtype = Dtype.float64) (hs2 : image2.shape = [st.height, st.width])
    (ht3 : image3.dtype = Dtype.float64) (hs3 : image3.shape = [st.height, st.width]) :
    PyBobIpOptflowCentralGradient_evaluate st image1 image2 image3 none none none =
      Except.ok
        (along_t st.avg
           (along_y st.avg st.height (along_x st.diff st.width image1.entries))
           (along_y st.avg st.height (along_x st.diff st.width image2.entries))
           (along_y st.avg st.height (along_x st.diff st.width image3.entries)),
         along_t st.avg
           (along_y st.diff st.height (along_x st.avg st.width image1.entries))
           (along_y st.diff st.height (along_x st.avg st.width image2.entries))
           (along_y st.diff st.height (along_x st.avg st.width image3.entries)),
         along_t st.diff
           (along_y st.avg st.height (along_x st.avg st.width image1.entries))
           (along_y st.avg st.height (along_x st.avg st.width image2.entries))
           (along_y st.avg st.height (along_x st.avg st.width image3.entries))) := by
  have hn1 : image1.shape.length = 2 := by rw [hs1]; rfl
  have hn2 : image2.shape.length = 2 := by rw [hs2]; rfl
  have hn3 : image3.shape.length = 2 := by rw [hs3]; rfl
  have hd1 : ¬¬(image1.dtype = Dtype.float64 ∧ image1.shape.length = 2) :=
    not_not_intro ⟨ht1, hn1⟩
  have hd2 : ¬¬(image2.dtype = Dtype.float64 ∧ image2.shape.length = 2) :=
    not_not_intro ⟨ht2, hn2⟩
  have hd3 : ¬¬(image3.dtype = Dtype.float64 ∧ image3.shape.length = 2) :=
    not_not_intro ⟨ht3, hn3⟩
  simp only [PyBobIpOptflowCentralGradient_evaluate,
    if_neg hd1, if_neg hd2, if_neg hd3, if_neg (not_not_intro hs1),
    if_neg (not_not_intro hs2), if_neg (not_not_intro hs3)]
  exact congrArg Except.ok (centralOp_separable st.diff st.avg st.height st.width
    image1.entries image2.entries image3.entries)

/-- C6 witness: a concrete 1×1 estimator and triplet. -/
theorem c6_separable_composition_witness :
    ((PyArr.mk Dtype.float64 [1, 1] zeroFun).dtype = Dtype.float64 ∧
      (PyArr.mk Dtype.float64 [1, 1] zeroFun).shape =
        [(GradState.mk ⟨1, 0, -1⟩ ⟨1, 1, 1⟩ 1 1).height,
         (GradState.mk ⟨1, 0, -1⟩ ⟨1, 1, 1⟩ 1 1).width]) ∧
    PyBobIpOptflowCentralGradient_evaluate (GradState.mk ⟨1, 0, -1⟩ ⟨1, 1, 1⟩ 1 1)
      (PyArr.mk Dtype.float64 [1, 1] zeroFun) (PyArr.mk Dtype.float64 [1, 1] zeroFun)
      (PyArr.mk Dtype.float64 [1, 1] zeroFun) none none none =
      Except.ok
        (along_t ⟨1, 1, 1⟩ (along_y ⟨1, 1, 1⟩ 1 (along_x ⟨1, 0, -1⟩ 1 zeroFun))
           (along_y ⟨1, 1, 1⟩ 1 (along_x ⟨1, 0, -1⟩ 1 zeroFun))
           (along_y ⟨1, 1, 1⟩ 1 (along_x ⟨1, 0, -1⟩ 1 zeroFun)),
         along_t ⟨1, 1, 1⟩ (along_y ⟨1, 0, -1⟩ 1 (along_x ⟨1, 1, 1⟩ 1 zeroFun))
           (along_y ⟨1, 0, -1⟩ 1 (along_x ⟨1, 1, 1⟩ 1 zeroFun))
           (along_y ⟨1, 0, -1⟩ 1 (along_x ⟨1, 1, 1⟩ 1 zeroFun)),
         along_t ⟨1, 0, -1⟩ (along_y ⟨1, 1, 1⟩ 1 (along_x ⟨1, 1, 1⟩ 1 zeroFun))
           (along_y ⟨1, 1, 1⟩ 1 (along_x ⟨1, 1, 1⟩ 1 zeroFun))
           (along_y ⟨1, 1, 1⟩ 1 (along_x ⟨1, 1, 1⟩ 1 zeroFun))) :=
  ⟨⟨by decide, by decide⟩,
   c6_separable_composition (GradState.mk ⟨1, 0, -1⟩ ⟨1, 1, 1⟩ 1 1)
     (PyArr.mk Dtype.float64 [1, 1] zeroFun) (PyArr.mk Dtype.float64 [1, 1] zeroFun)
     (PyArr.mk Dtype.float64 [1, 1] zeroFun)
     (by decide) (by decide) (by decide) (by decide) (by decide) (by decide)⟩

/-- C3: with well-typed buffers all provided, `evaluate` succeeds exactly
when all six of `image1`, `image2`, `image3`, `ex`, `ey`, `et` have the
configured shape `(H, W)`; any mismatch makes the call fail before the
functor runs, so nothing is written to the outputs. -/
theorem c3_evaluate_shape_guard (st : GradState)
    (image1 image2 image3 exArr eyArr etArr : PyArr)
    (ht1 : image1.dtype = Dtype.float64) (hn1 : image1.shape.length = 2)
    (ht2 : image2.dtype = Dtype.float64) (hn2 : image2.shape.length = 2)
    (ht3 : image3.dtype = Dtype.float64) (hn3 : image3.shape.length = 2)
    (htx : exArr.dtype = Dtype.float64) (hnx : exArr.shape.length = 2)
    (hty : eyArr.dtype = Dtype.float64) (hny : eyArr.shape.length = 2)
    (htt : etArr.dtype = Dtype.float64) (hnt : etArr.shape.length = 2) :
    exOk (PyBobIpOptflowCentralGradient_evaluate st image1 image2 image3
        (some exArr) (some eyArr) (some etArr)) = true ↔
      (image1.shape = [st.height, st.width] ∧ image2.shape = [st.height, st.width] ∧
       image3.shape = [st.height, st.width] ∧ exArr.shape = [st.height, st.width] ∧
       eyArr.shape = [st.height, st.width] ∧ etArr.shape = [st.height, st.width]) := by
  have hd1 : ¬¬(image1.dtype = Dtype.float64 ∧ image1.shape.length = 2) :=
    not_not_intro ⟨ht1, hn1⟩
  have hd2 : ¬¬(image2.dtype = Dtype.float64 ∧ image2.shape.length = 2) :=
    not_not_intro ⟨ht2, hn2⟩
  have hd3 : ¬¬(image3.dtype = Dtype.float64 ∧ image3.shape.length = 2) :=
    not_not_intro ⟨ht3, hn3⟩
  have hdx : ¬¬(exArr.dtype = Dtype.float64 ∧ exArr.shape.length = 2) :=
    not_not_intro ⟨htx, hnx⟩
  have hdy : ¬¬(eyArr.dtype = Dtype.float64 ∧ eyArr.shape.length = 2) :=
    not_not_intro ⟨hty, hny⟩
  have hdt : ¬¬(etArr.dtype = Dtype.float64 ∧ etArr.shape.length = 2) :=
    not_not_intro ⟨htt, hnt⟩
  simp only [PyBobIpOptflowCentralGradient_evaluate,
    if_neg hd1, if_neg hd2, if_neg hd3, if_neg hdx, if_neg hdy, if_neg hdt]
  split_ifs with hS1 hS2 hS3 hSx hSy hSt <;> simp_all [exOk]

/-- C3 witness: a concrete estimator with all six buffers of the configured
1×1 shape. -/
theorem c3_evaluate_shape_guard_witness :
    ((PyArr.mk Dtype.float64 [1, 1] zeroFun).dtype = Dtype.float64 ∧
      (PyArr.mk Dtype.float64 [1, 1] zeroFun).shape.length = 2) ∧
    (exOk (PyBobIpOptflowCentralGradient_evaluate (GradState.mk ⟨1, 0, -1⟩ ⟨1, 1, 1⟩ 1 1)
        (PyArr.mk Dtype.float64 [1, 1] zeroFun) (PyArr.mk Dtype.float64 [1, 1] zeroFun)
        (PyArr.mk Dtype.float64 [1, 1] zeroFun)
        (some (PyArr.mk Dtype.float64 [1, 1] zeroFun))
        (some (PyArr.mk Dtype.float64 [1, 1] zeroFun))
        (some (PyArr.mk Dtype.float64 [1, 1] zeroFun))) = true ↔
      ((PyArr.mk Dtype.float64 [1, 1] zeroFun).shape = [1, 1] ∧
       (PyArr.mk Dtype.float64 [1, 1] zeroFun).shape = [1, 1] ∧
       (PyArr.mk Dtype.float64 [1, 1] zeroFun).shape = [1, 1] ∧
       (PyArr.mk Dtype.float64 [1, 1] zeroFun).shape = [1, 1] ∧
       (PyArr.mk Dtype.float64 [1, 1] zeroFun).shape = [1, 1] ∧
       (PyArr.mk Dtype.float64 [1, 1] zeroFun).shape = [1, 1])) :=
  ⟨⟨by decide, by decide⟩,
   c3_evaluate_shape_guard (GradState.mk ⟨1, 0, -1⟩ ⟨1, 1, 1⟩ 1 1)
     (PyArr.mk Dtype.float64 [1, 1] zeroFun) (PyArr.mk Dtype.float64 [1, 1] zeroFun)
     (PyArr.mk Dtype.float64 [1, 1] zeroFun) (PyArr.mk Dtype.float64 [1, 1] zeroFun)
     (PyArr.mk Dtype.float64 [1, 1] zeroFun) (PyArr.mk Dtype.float64 [1, 1] zeroFun)
     (by decide) (by decide) (by decide) (by decide) (by decide) (by decide)
     (by decide) (by decide) (by decide) (by decide) (by decide) (by decide)⟩

/-- C10: supplying some but not all of the optional outputs `ex`, `ey`,
`et` makes `evaluate` fail before any computation; supplying none makes it
behave exactly as if three freshly allocated, zero-initialised float64
arrays of the configured shape had been passed. -/
theorem c10_outputs_all_or_none (st : GradState) (image1 image2 image3 : PyArr)
    (ex ey et : Option PyArr)
    (ht1 : image1.dtype = Dtype.float64) (hs1 : image1.shape = [st.height, st.width])
    (ht2 : image2.dtype = Dtype.float64) (hs2 : image2.shape = [st.height, st.width])
    (ht3 : image3.dtype = Dtype.float64) (hs3 : image3.shape = [st.height, st.width])
    (hsome : ex.isSome = true ∨ ey.isSome = true ∨ et.isSome = true)
    (hnotall : ¬(ex.isSome = true ∧ ey.isSome = true ∧ et.isSome = true)) :
    exOk (PyBobIpOptflowCentralGradient_evaluate st image1 image2 image3 ex ey et) =
      false ∧
    PyBobIpOptflowCentralGradient_evaluate st image1 image2 image3 none none none =
      PyBobIpOptflowCentralGradient_evaluate st image1 image2 image3
        (some (PyArr.mk Dtype.float64 [st.height, st.width] zeroFun))
        (some (PyArr.mk Dtype.float64 [st.height, st.width] zeroFun))
        (some (PyArr.mk Dtype.float64 [st.height, st.width] zeroFun)) := by
  have hn1 : image1.shape.length = 2 := by rw [hs1]; rfl
  have hn2 : image2.shape.length = 2 := by rw [hs2]; rfl
  have hn3 : image3.shape.length = 2 := by rw [hs3]; rfl
  have hd1 : ¬¬(image1.dtype = Dtype.float64 ∧ image1.shape.length = 2) :=
    not_not_intro ⟨ht1, hn1⟩
  have hd2 : ¬¬(image2.dtype = Dtype.float64 ∧ image2.shape.length = 2) :=
    not_not_intro ⟨ht2, hn2⟩
  have hd3 : ¬¬(image3.dtype = Dtype.float64 ∧ image3.shape.length = 2) :=
    not_not_intro ⟨ht3, hn3⟩
  constructor
  · simp only [PyBobIpOptflowCentralGradient_evaluate,
      if_neg hd1, if_neg hd2, if_neg hd3, if_neg (not_not_intro hs1),
      if_neg (not_not_intro hs2), if_neg (not_not_intro hs3)]
    rcases ex with _ | exArr <;> rcases ey with _ | eyArr <;> rcases et with _ | etArr <;>
      simp_all [exOk]
  · simp only [PyBobIpOptflowCentralGradient_evaluate,
      if_neg hd1, if_neg hd2, if_neg hd3, if_neg (not_not_intro hs1),
      if_neg (not_not_intro hs2), if_neg (not_not_intro hs3)]
    rfl

/-- C10 witness: supplying only `ex` on a concrete valid call fails, and
the no-output call equals the zero-buffers call. -/
theorem c10_outputs_all_or_none_witness :
    ((some (PyArr.mk Dtype.float64 [1, 1] zeroFun) : Option PyArr).isSome = true ∨
      (none : Option PyArr).isSome = true ∨ (none : Option PyArr).isSome = true) ∧
    exOk (PyBobIpOptflowCentralGradient_evaluate (GradState.mk ⟨1, 0, -1⟩ ⟨1, 1, 1⟩ 1 1)
        (PyArr.mk Dtype.float64 [1, 1] zeroFun) (PyArr.mk Dtype.float64 [1, 1] zeroFun)
        (PyArr.mk Dtype.float64 [1, 1] zeroFun)
        (some (PyArr.mk Dtype.float64 [1, 1] zeroFun)) none none) = false :=
  ⟨Or.inl (by decide),
   (c10_outputs_all_or_none (GradState.mk ⟨1, 0, -1⟩ ⟨1, 1, 1⟩ 1 1)
     (PyArr.mk Dtype.float64 [1, 1] zeroFun) (PyArr.mk Dtype.float64 [1, 1] zeroFun)
     (PyArr.mk Dtype.float64 [1, 1] zeroFun)
     (some (PyArr.mk Dtype.float64 [1, 1] zeroFun)) none none
     (by decide) (by decide) (by decide) (by decide) (by decide) (by decide)
     (Or.inl (by decide)) (by decide)).1⟩
